import Mathlib

/-
  Verification of the AppointmentSystem repository core.

  Shallow embedding of the appointment scheduling engine:
  - enums and per-service tables from src/src/main/schema.py and src/src/main/models.py;
  - the before_insert/before_update listener validate_appointment (models.py),
    including the business-hours, weekend, notice, duration and overlap checks;
  - the GraphQL mutation update_appointment_status (src/src/main/graphql_schema.py);
  - the after_insert listener update_client_metrics (models.py) acting on a client row;
  - ServicePackage.can_use_session / use_session and validate_service_package (models.py),
    plus the pydantic validators of src/src/main/schema.py;
  - Client.calculated_category (models.py).

  Modelling conventions:
  - timestamps are natural numbers of minutes since an epoch that falls on a
    Monday at 00:00 UTC, so Python datetime.hour becomes t % 1440 / 60 and
    datetime.weekday() becomes t / 1440 % 7 (0 = Monday, matching Python);
  - timedelta(days = d) is d * 1440 minutes, timedelta(hours = 2) is 120 minutes;
  - Python float money amounts are rationals; SQL Integer columns are integers;
  - raising ValueError / GraphQLError is Except.error with the message of the
    source (the source sometimes interpolates data into the message; the
    messages here keep the fixed text only);
  - the persisted appointments table is a list, and the overlap SQL query of
    validate_appointment becomes List.any of the WHERE predicate.
-/

namespace AppointmentSystem

/-- Appointment statuses, from class AppointmentStatus in src/src/main/schema.py. -/
inductive AppointmentStatus where
  | SCHEDULED
  | CONFIRMED
  | CANCELLED
  | COMPLETED
  | DECLINED
deriving DecidableEq, Repr

/-- Service types, from class ServiceType in src/src/main/models.py. -/
inductive ServiceType where
  | HAIRCUT
  | MANICURE
  | PEDICURE
  | FACIAL
  | MASSAGE
  | HAIRCOLOR
  | HAIRSTYLE
  | MAKEUP
  | WAXING
  | OTHER
deriving DecidableEq, Repr

/-- Default duration in minutes for each service type
    (ServiceType.get_duration_minutes in models.py). -/
def ServiceType.get_duration_minutes : ServiceType → Nat
  | .HAIRCUT => 30
  | .MANICURE => 45
  | .PEDICURE => 60
  | .FACIAL => 60
  | .MASSAGE => 60
  | .HAIRCOLOR => 120
  | .HAIRSTYLE => 45
  | .MAKEUP => 60
  | .WAXING => 30
  | .OTHER => 30

/-- Base cost for each service type (ServiceType.get_base_cost in models.py). -/
def ServiceType.get_base_cost : ServiceType → ℚ
  | .HAIRCUT => 30
  | .MANICURE => 25
  | .PEDICURE => 35
  | .FACIAL => 65
  | .MASSAGE => 75
  | .HAIRCOLOR => 100
  | .HAIRSTYLE => 45
  | .MAKEUP => 55
  | .WAXING => 30
  | .OTHER => 40

/-- Loyalty points earned for each service type
    (ServiceType.get_loyalty_points in models.py). -/
def ServiceType.get_loyalty_points : ServiceType → Nat
  | .HAIRCUT => 10
  | .MANICURE => 8
  | .PEDICURE => 12
  | .FACIAL => 15
  | .MASSAGE => 20
  | .HAIRCOLOR => 25
  | .HAIRSTYLE => 12
  | .MAKEUP => 15
  | .WAXING => 10
  | .OTHER => 10

/-- Hour of day of a timestamp given in minutes since a midnight epoch,
    Python datetime.hour. -/
def hourOfTime (t : Nat) : Nat := t % 1440 / 60

/-- Weekday of a timestamp given in minutes since an epoch on a Monday,
    Python datetime.weekday with 0 = Monday. -/
def weekdayOf (t : Nat) : Nat := t / 1440 % 7

/-- An appointment row, from class Appointment in src/src/main/models.py
    (columns that the verified operations touch). -/
structure Appointment where
  id : String
  start_time : Nat
  duration_minutes : Nat
  end_time : Nat
  status : AppointmentStatus
  service_type : ServiceType
  creator_id : String
  attendees : List String
deriving DecidableEq, Repr

/-- The WHERE predicate of the overlap query in validate_appointment
    (models.py): id differs, status is not CANCELLED, and the half-open
    intervals intersect. -/
def blocksCandidate (startT endT : Nat) (tid : String) (b : Appointment) : Bool :=
  decide (b.id ≠ tid) && decide (b.status ≠ AppointmentStatus.CANCELLED) &&
    decide (startT < b.end_time) && decide (b.start_time < endT)

def hoursErrorMsg : String := "Appointments must be between 9 AM and 7 PM"

def weekendErrorMsg : String := "Appointments cannot be scheduled on weekends"

def noticeErrorMsg : String := "Appointments must be scheduled at least 2 hours in advance"

def minDurationErrorMsg : String := "Appointment duration must be at least 15 minutes"

def maxDurationErrorMsg : String := "Appointment duration cannot exceed 8 hours"

def serviceDurationErrorMsg : String := "Duration cannot be less than the service default"

def overlapErrorMsg : String := "There is already an overlapping appointment"

/-- The validate_appointment listener of src/src/main/models.py, registered
    for before_insert and before_update of Appointment. Checks run in source
    order: business hours, weekend, minimum notice, duration bounds, the
    service-type minimum duration, then the overlap query; on success the
    listener stores end_time = start_time + duration_minutes on the target. -/
def validate_appointment (now : Nat) (persisted : List Appointment)
    (target : Appointment) : Except String Appointment :=
  if hourOfTime target.start_time < 9 ∨
      19 ≤ hourOfTime (target.start_time + target.duration_minutes) then
    Except.error hoursErrorMsg
  else if 5 ≤ weekdayOf target.start_time then
    Except.error weekendErrorMsg
  else if target.start_time < now + 120 then
    Except.error noticeErrorMsg
  else if target.duration_minutes < 15 then
    Except.error minDurationErrorMsg
  else if 480 < target.duration_minutes then
    Except.error maxDurationErrorMsg
  else if target.duration_minutes < ServiceType.get_duration_minutes target.service_type then
    Except.error serviceDurationErrorMsg
  else if persisted.any
      (blocksCandidate target.start_time (target.start_time + target.duration_minutes) target.id) then
    Except.error overlapErrorMsg
  else
    Except.ok { target with end_time := target.start_time + target.duration_minutes }

/-- Whether an Except value is a success. -/
def resultOk : Except String Appointment → Bool
  | Except.ok _ => true
  | Except.error _ => false

/-- The update_appointment_status mutation of src/src/main/graphql_schema.py,
    for an appointment already fetched for the current user: only the creator
    may set CANCELLED, only an attendee may set DECLINED, and otherwise the
    requested status is stored unconditionally. -/
def update_appointment_status (current_user : String) (appt : Appointment)
    (status : AppointmentStatus) : Except String Appointment :=
  if status = AppointmentStatus.CANCELLED ∧ appt.creator_id ≠ current_user then
    Except.error "Only the creator can cancel an appointment"
  else if status = AppointmentStatus.DECLINED ∧ current_user ∉ appt.attendees then
    Except.error "Only attendees can decline an appointment"
  else
    Except.ok { appt with status := status }

/-- Modelled from the spec: the allowed edge set of the status transition
    machine in section 4.3 of the design document. No transition validation
    exists anywhere in the source; this definition renders the table the
    claim quotes, for comparison with update_appointment_status. -/
def specAllowedTransition : AppointmentStatus → AppointmentStatus → Bool
  | AppointmentStatus.SCHEDULED, AppointmentStatus.CONFIRMED => true
  | AppointmentStatus.SCHEDULED, AppointmentStatus.CANCELLED => true
  | AppointmentStatus.CONFIRMED, AppointmentStatus.COMPLETED => true
  | AppointmentStatus.CONFIRMED, AppointmentStatus.CANCELLED => true
  | _, _ => false

/-- A ServiceHistory row, from class ServiceHistory in src/src/main/models.py
    (columns read by update_client_metrics and by the loyalty ledger). -/
structure ServiceHistoryRow where
  loyalty_points_earned : ℤ
  points_redeemed : ℤ
  service_cost : ℚ
deriving DecidableEq, Repr

/-- The client columns written by update_client_metrics, from class Client
    in src/src/main/models.py. -/
structure ClientState where
  loyalty_points : ℤ
  total_spent : ℚ
  visit_count : ℤ
deriving DecidableEq, Repr

/-- The update_client_metrics listener of src/src/main/models.py, registered
    for after_insert of ServiceHistory. Its UPDATE statement adds the
    loyalty_points_earned of the row to the client balance, adds the cost to
    total_spent and increments visit_count; points_redeemed is not read. -/
def update_client_metrics (c : ClientState) (row : ServiceHistoryRow) : ClientState :=
  { c with
    loyalty_points := c.loyalty_points + row.loyalty_points_earned
    total_spent := c.total_spent + row.service_cost
    visit_count := c.visit_count + 1 }

/-- The client state after a sequence of ServiceHistory insertions, each one
    firing update_client_metrics. -/
def applyServiceHistory (c : ClientState) (rows : List ServiceHistoryRow) : ClientState :=
  rows.foldl update_client_metrics c

/-- The loyalty balance the spec says is reconstructable from history:
    sum of loyalty_points_earned minus sum of points_redeemed. -/
def ledgerBalance (rows : List ServiceHistoryRow) : ℤ :=
  (rows.map ServiceHistoryRow.loyalty_points_earned).sum -
    (rows.map ServiceHistoryRow.points_redeemed).sum

/-- A service package row, from class ServicePackage in src/src/main/models.py.
    minimum_interval is in days; date columns are minutes. -/
structure ServicePackage where
  service_type : ServiceType
  total_sessions : ℤ
  sessions_remaining : ℤ
  purchase_date : Nat
  expiry_date : Nat
  package_cost : ℚ
  minimum_interval : Nat
  last_session_date : Option Nat
deriving DecidableEq, Repr

/-- ServicePackage.can_use_session of src/src/main/models.py: sessions must
    remain, and if a last session date exists, now must have reached
    last_session_date + minimum_interval days. -/
def can_use_session (now : Nat) (p : ServicePackage) : Bool :=
  if p.sessions_remaining ≤ 0 then
    false
  else
    match p.last_session_date with
    | some d => if now < d + p.minimum_interval * 1440 then false else true
    | none => true

def sessionErrorMsg : String := "Cannot use session at this time"

/-- ServicePackage.use_session of src/src/main/models.py: raises unless
    can_use_session holds, otherwise decrements sessions_remaining and stamps
    last_session_date with now. An error leaves the row as it was. -/
def use_session (now : Nat) (p : ServicePackage) : Except String ServicePackage :=
  if can_use_session now p = false then
    Except.error sessionErrorMsg
  else
    Except.ok { p with
      sessions_remaining := p.sessions_remaining - 1
      last_session_date := some now }

/-- Modelled from the spec: restore_session (section 4.4) is absent from the
    source; only the spec describes it. It increments sessions_remaining by 1,
    capped at total_sessions, and leaves last_session_date alone. -/
def restore_session (p : ServicePackage) : ServicePackage :=
  { p with sessions_remaining := min (p.sessions_remaining + 1) p.total_sessions }

/-- The validate_service_package listener of src/src/main/models.py,
    registered for before_insert and before_update of ServicePackage: the
    expiry must lie more than 30 days past now, total_sessions must be in
    [1, 52], and the cost must reach 80 percent of the base cost per session
    times the session count. -/
def validate_service_package (now : Nat) (p : ServicePackage) : Except String Unit :=
  if p.expiry_date ≤ now + 30 * 1440 then
    Except.error "Package expiry must be at least 30 days in the future"
  else if p.total_sessions < 1 then
    Except.error "Package must include at least 1 session"
  else if 52 < p.total_sessions then
    Except.error "Package cannot exceed 52 sessions"
  else if p.package_cost <
      ServiceType.get_base_cost p.service_type * (8 / 10 : ℚ) * (p.total_sessions : ℚ) then
    Except.error "Package cost is below minimum allowed value"
  else
    Except.ok ()

/-- The pydantic validators of class ServicePackage in src/src/main/schema.py:
    the total_sessions field bounds (ge 1, le 52), validate_expiry (expiry
    strictly beyond purchase_date + 30 days) and validate_cost (cost at least
    base cost times sessions times 0.8). -/
def schema_validate_package (p : ServicePackage) : Bool :=
  decide (1 ≤ p.total_sessions) && decide (p.total_sessions ≤ 52) &&
    decide (p.purchase_date + 30 * 1440 < p.expiry_date) &&
    decide (ServiceType.get_base_cost p.service_type * (p.total_sessions : ℚ) * (8 / 10 : ℚ)
      ≤ p.package_cost)

/-- Client categories, from class ClientCategory in src/src/main/models.py. -/
inductive ClientCategory where
  | NEW
  | REGULAR
  | VIP
  | PREMIUM
deriving DecidableEq, Repr

/-- Client.calculated_category of src/src/main/models.py: category derived
    from total_spent and visit_count by a threshold chain. -/
def calculated_category (total_spent : ℚ) (visit_count : ℤ) : ClientCategory :=
  if 1000 ≤ total_spent ∧ 20 ≤ visit_count then ClientCategory.PREMIUM
  else if 500 ≤ total_spent ∧ 10 ≤ visit_count then ClientCategory.VIP
  else if 3 ≤ visit_count then ClientCategory.REGULAR
  else ClientCategory.NEW

/-- Rank of a category in the NEW < REGULAR < VIP < PREMIUM order. -/
def categoryRank : ClientCategory → Nat
  | ClientCategory.NEW => 0
  | ClientCategory.REGULAR => 1
  | ClientCategory.VIP => 2
  | ClientCategory.PREMIUM => 3

/-- A confirmed appointment owned by user provider1, used to exercise the
    status mutation. -/
def c1_appt : Appointment :=
  { id := "appt1", start_time := 600, duration_minutes := 60, end_time := 660,
    status := AppointmentStatus.CONFIRMED, service_type := ServiceType.HAIRCUT,
    creator_id := "provider1", attendees := [] }

/-- C1: the claim says a status change succeeds only along the allowed edge
    set and otherwise fails with an InvalidTransition error. The code has no
    transition check: the creator moves a CONFIRMED appointment back to
    SCHEDULED and the mutation succeeds, though CONFIRMED to SCHEDULED is not
    an allowed edge. This contradicts the repository test suite, which
    expects exactly this request to fail with an invalid status transition
    error (src/src/test/test_graphql_advanced.py). -/
theorem c1_status_update_unchecked :
    update_appointment_status "provider1" c1_appt AppointmentStatus.SCHEDULED =
        Except.ok { c1_appt with status := AppointmentStatus.SCHEDULED }
      ∧ specAllowedTransition AppointmentStatus.CONFIRMED AppointmentStatus.SCHEDULED = false
      ∧ c1_appt.status = AppointmentStatus.CONFIRMED :=
  ⟨rfl, rfl, rfl⟩

/-- Three earning services of 10 points each, then a redemption of 25
    points, as in the loyalty test of the repository. -/
def c2_rows : List ServiceHistoryRow :=
  [⟨10, 0, 50⟩, ⟨10, 0, 50⟩, ⟨10, 0, 50⟩, ⟨0, 25, 0⟩]

/-- A fresh client row with no points, spending or visits. -/
def c2_client : ClientState := ⟨0, 0, 0⟩

/-- C2: the claim says the stored loyalty balance equals the sum of
    loyalty_points_earned minus the sum of points_redeemed over the history.
    The update_client_metrics listener only ever adds loyalty_points_earned,
    so after three 10-point services and a 25-point redemption the stored
    balance is 30 while the ledger balance is 5. The repository test suite
    asserts the balance is 5 after this sequence
    (src/src/test/test_client_appointments.py). -/
theorem c2_redemption_not_deducted :
    (applyServiceHistory c2_client c2_rows).loyalty_points = 30
      ∧ ledgerBalance c2_rows = 5
      ∧ (applyServiceHistory c2_client c2_rows).loyalty_points ≠ ledgerBalance c2_rows :=
  ⟨rfl, rfl, by decide⟩

/-- A Monday 23:00 haircut of two hours, wrapping past midnight. -/
def c7_target : Appointment :=
  { id := "late1", start_time := 1380, duration_minutes := 120, end_time := 0,
    status := AppointmentStatus.SCHEDULED, service_type := ServiceType.HAIRCUT,
    creator_id := "u1", attendees := [] }

/-- C7: the claim says validation rejects any appointment whose start hour is
    outside [9, 19). The code only tests start hour below 9 and end hour at
    least 19, so a Monday 23:00 appointment of 120 minutes is accepted: its
    end wraps to hour 1 of the next day, defeating both the start-hour bound
    and the same-day business-hours window that the in-code error message
    (between 9 AM and 7 PM) promises. -/
theorem c7_midnight_wrap_accepted :
    validate_appointment 0 [] c7_target = Except.ok { c7_target with end_time := 1500 }
      ∧ hourOfTime c7_target.start_time = 23
      ∧ ¬ (9 ≤ hourOfTime c7_target.start_time ∧ hourOfTime c7_target.start_time < 19)
      ∧ hourOfTime (c7_target.start_time + c7_target.duration_minutes) = 1 :=
  ⟨rfl, rfl, by decide, rfl⟩

/-- C4: every appointment that validate_appointment accepts (the listener
    runs on before_insert and before_update, so on every successful insert
    or update) carries end_time = start_time + duration_minutes exactly. -/
theorem c4_end_time_invariant (now : Nat) (persisted : List Appointment)
    (target r : Appointment)
    (h : validate_appointment now persisted target = Except.ok r) :
    r.end_time = r.start_time + r.duration_minutes := by
  unfold validate_appointment at h
  split_ifs at h <;>
    first
      | exact Except.noConfusion h
      | (injection h with h2; subst h2; rfl)

/-- A Monday 10:00 haircut of one hour that validates cleanly. -/
def c4_target : Appointment :=
  { id := "a4", start_time := 600, duration_minutes := 60, end_time := 0,
    status := AppointmentStatus.SCHEDULED, service_type := ServiceType.HAIRCUT,
    creator_id := "u4", attendees := [] }

/-- The row validate_appointment persists for c4_target. -/
def c4_result : Appointment := { c4_target with end_time := 660 }

/-- Witness for C4 at a concrete accepted appointment. -/
theorem c4_end_time_invariant_witness :
    c4_result.end_time = c4_result.start_time + c4_result.duration_minutes :=
  c4_end_time_invariant 0 [] c4_target c4_result (by rfl)

/-- C8: a validated appointment has duration_minutes within [15, 480] and at
    least the service-type default duration, and any candidate with duration
    481 is rejected on every input. -/
theorem c8_duration_bounds (now : Nat) (persisted : List Appointment)
    (target : Appointment) :
    (∀ r, validate_appointment now persisted target = Except.ok r →
      15 ≤ target.duration_minutes ∧ target.duration_minutes ≤ 480 ∧
        ServiceType.get_duration_minutes target.service_type ≤ target.duration_minutes)
    ∧ (target.duration_minutes = 481 →
        resultOk (validate_appointment now persisted target) = false) := by
  constructor
  · intro r h
    unfold validate_appointment at h
    split_ifs at h <;> first | exact Except.noConfusion h | omega
  · intro hd
    unfold validate_appointment resultOk
    split_ifs with h1 h2 h3 h4 h5 h6 h7 <;>
      first | rfl | exact absurd hd (by omega)

/-- A Monday 10:00 haircut of one hour, accepted by validation. -/
def c8_ok_target : Appointment :=
  { id := "a8", start_time := 600, duration_minutes := 60, end_time := 0,
    status := AppointmentStatus.SCHEDULED, service_type := ServiceType.HAIRCUT,
    creator_id := "u8", attendees := [] }

/-- The same booking with duration 481 minutes. -/
def c8_bad_target : Appointment :=
  { id := "a8b", start_time := 600, duration_minutes := 481, end_time := 0,
    status := AppointmentStatus.SCHEDULED, service_type := ServiceType.HAIRCUT,
    creator_id := "u8", attendees := [] }

/-- Witness for C8: concrete bounds on an accepted booking, and rejection of
    a 481-minute booking. -/
theorem c8_duration_bounds_witness :
    (15 ≤ c8_ok_target.duration_minutes ∧ c8_ok_target.duration_minutes ≤ 480 ∧
      ServiceType.get_duration_minutes c8_ok_target.service_type ≤ c8_ok_target.duration_minutes)
    ∧ resultOk (validate_appointment 0 [] c8_bad_target) = false :=
  ⟨(c8_duration_bounds 0 [] c8_ok_target).1 { c8_ok_target with end_time := 660 } (by rfl),
   (c8_duration_bounds 0 [] c8_bad_target).2 rfl⟩

/-- C5: use_session fails exactly when can_use_session is false, namely when
    no sessions remain or the minimum interval since last_session_date has
    not elapsed; a failure returns only an error so the row is untouched, and
    on success sessions_remaining drops by one and last_session_date becomes
    now. -/
theorem c5_use_session (now : Nat) (p : ServicePackage) :
    (use_session now p = Except.error sessionErrorMsg ↔ can_use_session now p = false)
    ∧ (can_use_session now p = true →
        use_session now p = Except.ok { p with
          sessions_remaining := p.sessions_remaining - 1
          last_session_date := some now })
    ∧ (can_use_session now p = false ↔
        (p.sessions_remaining ≤ 0 ∨
          ∃ d, p.last_session_date = some d ∧ now < d + p.minimum_interval * 1440)) := by
  refine ⟨?_, ?_, ?_⟩
  · unfold use_session
    by_cases hc : can_use_session now p = false <;> simp [hc]
  · intro hc
    unfold use_session
    simp [hc]
  · unfold can_use_session
    cases hl : p.last_session_date with
    | none =>
      by_cases hs : p.sessions_remaining ≤ 0 <;> simp [hs, hl]
    | some d =>
      by_cases hs : p.sessions_remaining ≤ 0
      · simp [hs, hl]
      · by_cases ht : now < d + p.minimum_interval * 1440 <;> simp [hs, ht, hl]

/-- Scenario D package: one session left, seven-day interval, last session at
    time 0. -/
def c5_pkg : ServicePackage :=
  { service_type := ServiceType.MASSAGE, total_sessions := 10, sessions_remaining := 1,
    purchase_date := 0, expiry_date := 200000, package_cost := 600,
    minimum_interval := 7, last_session_date := some 0 }

/-- Witness for C5, Scenario D: a use on day 4 fails, a use on day 7
    succeeds, consuming the last session and restamping the date. -/
theorem c5_use_session_witness :
    use_session 5760 c5_pkg = Except.error sessionErrorMsg
    ∧ use_session 10080 c5_pkg = Except.ok { c5_pkg with
        sessions_remaining := 0, last_session_date := some 10080 } :=
  ⟨(c5_use_session 5760 c5_pkg).1.mpr (by rfl),
   (c5_use_session 10080 c5_pkg).2.1 (by rfl)⟩

/-- C6: restore_session adds exactly one session back, capped at
    total_sessions, and leaves last_session_date as it was. Modelled from the
    spec, section 4.4, as the source has no restore_session. -/
theorem c6_restore_session (p : ServicePackage) :
    (restore_session p).sessions_remaining = min (p.sessions_remaining + 1) p.total_sessions
    ∧ (restore_session p).sessions_remaining ≤ p.total_sessions
    ∧ (restore_session p).last_session_date = p.last_session_date
    ∧ (p.sessions_remaining < p.total_sessions →
        (restore_session p).sessions_remaining = p.sessions_remaining + 1) := by
  refine ⟨rfl, min_le_right _ _, rfl, ?_⟩
  intro h
  show min (p.sessions_remaining + 1) p.total_sessions = p.sessions_remaining + 1
  exact min_eq_left (by omega)

/-- A package holding three of ten sessions. -/
def c6_pkg : ServicePackage :=
  { service_type := ServiceType.MASSAGE, total_sessions := 10, sessions_remaining := 3,
    purchase_date := 0, expiry_date := 100000, package_cost := 600,
    minimum_interval := 7, last_session_date := some 0 }

/-- Witness for C6 on a concrete uncapped package. -/
theorem c6_restore_session_witness :
    (restore_session c6_pkg).sessions_remaining = c6_pkg.sessions_remaining + 1
    ∧ (restore_session c6_pkg).last_session_date = c6_pkg.last_session_date :=
  ⟨(c6_restore_session c6_pkg).2.2.2 (by decide), (c6_restore_session c6_pkg).2.2.1⟩

/-- C3: the conflict stage of validate_appointment rejects a candidate
    exactly when some persisted appointment satisfies the half-open overlap
    test, is not cancelled, and has a different id; the success of the same
    candidate against an empty table expresses that the static rules had
    already passed. Abutting intervals never block. -/
theorem c3_conflict_detection (now : Nat) (apps : List Appointment) (t : Appointment) :
    ((validate_appointment now apps t = Except.error overlapErrorMsg) ↔
      (resultOk (validate_appointment now [] t) = true ∧
        ∃ b ∈ apps, t.start_time < b.end_time ∧
          b.start_time < t.start_time + t.duration_minutes ∧
          b.status ≠ AppointmentStatus.CANCELLED ∧ b.id ≠ t.id))
    ∧ (∀ b ∈ apps,
        (b.end_time = t.start_time ∨ t.start_time + t.duration_minutes = b.start_time) →
        blocksCandidate t.start_time (t.start_time + t.duration_minutes) t.id b = false) := by
  constructor
  · unfold validate_appointment
    split_ifs with h1 h2 h3 h4 h5 h6 hA hN
    all_goals try
      (simp [resultOk, hoursErrorMsg, weekendErrorMsg, noticeErrorMsg,
        minDurationErrorMsg, maxDurationErrorMsg, serviceDurationErrorMsg,
        overlapErrorMsg]; done)
    all_goals try (simp at hN)
    · refine iff_of_true rfl ⟨rfl, ?_⟩
      obtain ⟨b, hb, hpb⟩ := List.any_eq_true.mp hA
      unfold blocksCandidate at hpb
      simp only [Bool.and_eq_true, decide_eq_true_eq] at hpb
      exact ⟨b, hb, hpb.1.2, hpb.2, hpb.1.1.2, hpb.1.1.1⟩
    · refine iff_of_false (by simp) ?_
      rintro ⟨-, b, hb, hb1, hb2, hb3, hb4⟩
      refine hA (List.any_eq_true.mpr ⟨b, hb, ?_⟩)
      unfold blocksCandidate
      simp only [Bool.and_eq_true, decide_eq_true_eq]
      exact ⟨⟨⟨hb4, hb3⟩, hb1⟩, hb2⟩
  · intro b _ hab
    unfold blocksCandidate
    rcases hab with h | h <;> simp [h]

/-- A Monday 10:00 to 11:00 candidate booking. -/
def c3_t : Appointment :=
  { id := "c3a", start_time := 600, duration_minutes := 60, end_time := 0,
    status := AppointmentStatus.SCHEDULED, service_type := ServiceType.HAIRCUT,
    creator_id := "u3", attendees := [] }

/-- A persisted booking that starts exactly when c3_t ends. -/
def c3_b : Appointment :=
  { id := "c3b", start_time := 660, duration_minutes := 30, end_time := 690,
    status := AppointmentStatus.SCHEDULED, service_type := ServiceType.HAIRCUT,
    creator_id := "u3", attendees := [] }

/-- Witness for C3: the exactly abutting persisted appointment does not block
    the candidate. -/
theorem c3_conflict_detection_witness :
    blocksCandidate c3_t.start_time (c3_t.start_time + c3_t.duration_minutes) c3_t.id c3_b
      = false :=
  (c3_conflict_detection 0 [c3_b] c3_t).2 c3_b (List.mem_singleton.mpr rfl) (Or.inr rfl)

/-- C9: a package accepted by both the model-listener validation and the
    pydantic schema validation has total_sessions in [1, 52], an expiry at
    least 30 days past the purchase date, and a cost of at least 80 percent
    of the base cost times the session count; contrapositively, violating
    any of these rules means rejection by one of the validators. -/
theorem c9_package_purchase_rules (now : Nat) (p : ServicePackage)
    (_hm : validate_service_package now p = Except.ok ())
    (hs : schema_validate_package p = true) :
    (1 ≤ p.total_sessions ∧ p.total_sessions ≤ 52)
    ∧ p.purchase_date + 30 * 1440 ≤ p.expiry_date
    ∧ ServiceType.get_base_cost p.service_type * (8 / 10 : ℚ) * (p.total_sessions : ℚ)
        ≤ p.package_cost := by
  unfold schema_validate_package at hs
  simp only [Bool.and_eq_true, decide_eq_true_eq] at hs
  obtain ⟨⟨⟨h1, h2⟩, h3⟩, h4⟩ := hs
  refine ⟨⟨h1, h2⟩, le_of_lt h3, ?_⟩
  calc ServiceType.get_base_cost p.service_type * (8 / 10 : ℚ) * (p.total_sessions : ℚ)
      = ServiceType.get_base_cost p.service_type * (p.total_sessions : ℚ) * (8 / 10 : ℚ) := by
        ring
    _ ≤ p.package_cost := h4

/-- A ten-session haircut package at exactly the discounted floor price,
    expiring fifty days after purchase. -/
def c9_pkg : ServicePackage :=
  { service_type := ServiceType.HAIRCUT, total_sessions := 10, sessions_remaining := 10,
    purchase_date := 0, expiry_date := 72000, package_cost := 240,
    minimum_interval := 1, last_session_date := none }

/-- Witness for C9 at a concrete package both validators accept. -/
theorem c9_package_purchase_rules_witness :
    (1 ≤ c9_pkg.total_sessions ∧ c9_pkg.total_sessions ≤ 52)
    ∧ c9_pkg.purchase_date + 30 * 1440 ≤ c9_pkg.expiry_date
    ∧ ServiceType.get_base_cost c9_pkg.service_type * (8 / 10 : ℚ) * (c9_pkg.total_sessions : ℚ)
        ≤ c9_pkg.package_cost :=
  c9_package_purchase_rules 0 c9_pkg
    (by norm_num [validate_service_package, c9_pkg, ServiceType.get_base_cost])
    (by norm_num [schema_validate_package, c9_pkg, ServiceType.get_base_cost])

/-- Every category rank is at most the PREMIUM rank. -/
lemma categoryRank_le_three (c : ClientCategory) : categoryRank c ≤ 3 := by
  cases c <;> decide

/-- Below the PREMIUM thresholds the derived category ranks at most VIP. -/
lemma categoryRank_le_two (s : ℚ) (v : ℤ) (h1 : ¬(1000 ≤ s ∧ 20 ≤ v)) :
    categoryRank (calculated_category s v) ≤ 2 := by
  unfold calculated_category
  rw [if_neg h1]
  split_ifs <;> decide

/-- Below the PREMIUM and VIP thresholds the derived category ranks at most
    REGULAR. -/
lemma categoryRank_le_one (s : ℚ) (v : ℤ) (h1 : ¬(1000 ≤ s ∧ 20 ≤ v))
    (h2 : ¬(500 ≤ s ∧ 10 ≤ v)) :
    categoryRank (calculated_category s v) ≤ 1 := by
  unfold calculated_category
  rw [if_neg h1, if_neg h2]
  split_ifs <;> decide

/-- The derived category never drops when spending and visits grow. -/
lemma calculated_category_mono (s s2 : ℚ) (v v2 : ℤ) (hs : s ≤ s2) (hv : v ≤ v2) :
    categoryRank (calculated_category s v) ≤ categoryRank (calculated_category s2 v2) := by
  by_cases g1 : 1000 ≤ s2 ∧ 20 ≤ v2
  · have hch : calculated_category s2 v2 = ClientCategory.PREMIUM := by
      unfold calculated_category
      rw [if_pos g1]
    rw [hch]
    exact categoryRank_le_three _
  · have h1 : ¬(1000 ≤ s ∧ 20 ≤ v) := fun hp => g1 ⟨le_trans hp.1 hs, le_trans hp.2 hv⟩
    by_cases g2 : 500 ≤ s2 ∧ 10 ≤ v2
    · have hch : calculated_category s2 v2 = ClientCategory.VIP := by
        unfold calculated_category
        rw [if_neg g1, if_pos g2]
      rw [hch]
      exact categoryRank_le_two s v h1
    · have h2 : ¬(500 ≤ s ∧ 10 ≤ v) := fun hp => g2 ⟨le_trans hp.1 hs, le_trans hp.2 hv⟩
      by_cases g3 : (3 : ℤ) ≤ v2
      · have hch : calculated_category s2 v2 = ClientCategory.REGULAR := by
          unfold calculated_category
          rw [if_neg g1, if_neg g2, if_pos g3]
        rw [hch]
        exact categoryRank_le_one s v h1 h2
      · have h3 : ¬((3 : ℤ) ≤ v) := fun hb => g3 (le_trans hb hv)
        have hcv : calculated_category s v = ClientCategory.NEW := by
          unfold calculated_category
          rw [if_neg h1, if_neg h2, if_neg h3]
        rw [hcv]
        exact Nat.zero_le _

/-- C10: the derived client category is exactly the threshold chain of the
    source (PREMIUM, then VIP, then REGULAR, then NEW), and it is monotone:
    raising total_spent or visit_count never lowers the category. -/
theorem c10_calculated_category (s : ℚ) (v : ℤ) :
    (calculated_category s v = ClientCategory.PREMIUM ↔ 1000 ≤ s ∧ 20 ≤ v)
    ∧ (calculated_category s v = ClientCategory.VIP ↔
        (500 ≤ s ∧ 10 ≤ v) ∧ ¬(1000 ≤ s ∧ 20 ≤ v))
    ∧ (calculated_category s v = ClientCategory.REGULAR ↔
        3 ≤ v ∧ ¬(500 ≤ s ∧ 10 ≤ v) ∧ ¬(1000 ≤ s ∧ 20 ≤ v))
    ∧ (calculated_category s v = ClientCategory.NEW ↔
        ¬(3 ≤ v) ∧ ¬(500 ≤ s ∧ 10 ≤ v) ∧ ¬(1000 ≤ s ∧ 20 ≤ v))
    ∧ (∀ s2 v2, s ≤ s2 → v ≤ v2 →
        categoryRank (calculated_category s v) ≤ categoryRank (calculated_category s2 v2)) := by
  refine ⟨?_, ?_, ?_, ?_, fun s2 v2 hs hv => calculated_category_mono s s2 v v2 hs hv⟩
  all_goals
    unfold calculated_category
    split_ifs with h1 h2 h3 <;> simp_all

/-- Witness for C10: a category comparison at concrete growing inputs. -/
theorem c10_calculated_category_witness :
    categoryRank (calculated_category 400 5) ≤ categoryRank (calculated_category 1200 25) :=
  (c10_calculated_category 400 5).2.2.2.2 1200 25 (by decide) (by decide)

end AppointmentSystem
